import Mathlib

/-!
A shallow embedding of the connection-lifecycle engine of
`src/tools/e133/e133-monitor.cpp` (class `SimpleE133Monitor` and its helper
class `NodeTCPState`), together with proofs about the claims of the
specification.

Modelling conventions:
* IPv4 addresses are modelled as `Nat` (the source keys its hash map by
  `ip_address.AsInt()`, a `uint32_t`).
* Heap objects (`TcpSocket`, `E133HealthCheckedConnection`) are modelled as
  values carrying a fresh allocation id; `new` draws from a monotone counter
  `m_next_id`, and a pointer overwritten without an intervening `delete` is
  pushed onto an explicit `leaked_sockets` / `leaked_connections` list, so
  that resource-leak properties are statable.
* Side effects (log macros with their level, calls into the
  `E133TCPConnector`, socket close/delete, `SelectServer` registration and
  `Terminate`) are recorded as an event trace returned next to the new state.
* `Setup()` of the health-checked connection talks to the network, so its
  success is an oracle input of `OnTCPConnect`.
-/

inductive LogLevel where
  | info
  | warn
  | fatal
deriving DecidableEq

/-- One observable side effect of a monitor operation. -/
inductive Event where
  | log (lvl : LogLevel)
  | addEndpoint (ip : Nat)
  | socketClose (id : Nat)
  | socketDelete (id : Nat)
  | connectionDelete (id : Nat)
  | heartbeatReceived (id : Nat)
  | removeReadDescriptor (id : Option Nat)
  | addReadDescriptor (id : Nat)
  | endpointRequest (srcIP : Nat)
  | terminate
deriving DecidableEq

/-- Model of an `ola::network::TcpSocket` delivered by the connector:
an allocation id plus the peer address returned by `GetPeer`. -/
structure TcpSocket where
  id : Nat
  peer : Nat
deriving DecidableEq

/-- Model of an `E133HealthCheckedConnection` object: an allocation id plus
the address of the node it monitors. -/
structure E133HealthCheckedConnection where
  id : Nat
  addr : Nat
deriving DecidableEq

/-- Mirror of `class NodeTCPState` (src lines 176-191): the two owning
pointers become `Option` slots, `connection_attempts` is kept verbatim. -/
structure NodeTCPState where
  socket : Option TcpSocket
  health_checked_connection : Option E133HealthCheckedConnection
  connection_attempts : Nat
deriving DecidableEq

/-- State of a `SimpleE133Monitor`: the `m_ip_map` registry, the allocation
counter, the `SelectServer`'s terminated flag, and the lists of objects whose
owning pointer was overwritten without a `delete` (memory leaks). -/
structure SimpleE133Monitor where
  m_ip_map : List (Nat × NodeTCPState)
  m_next_id : Nat
  terminated : Bool
  leaked_sockets : List TcpSocket
  leaked_connections : List E133HealthCheckedConnection
deriving DecidableEq

/-- Lookup in the `m_ip_map` hash map (`m_ip_map.find(key)`). -/
def mapFind (k : Nat) : List (Nat × NodeTCPState) → Option NodeTCPState
  | [] => none
  | (k', v) :: rest => if k' = k then some v else mapFind k rest

/-- In-place update of the entry for key `k` (writes through the iterator
`iter->second`); a key that is absent is left absent. -/
def mapUpd (k : Nat) (v : NodeTCPState) : List (Nat × NodeTCPState) → List (Nat × NodeTCPState)
  | [] => []
  | (k', v') :: rest =>
      if k' = k then (k', v) :: mapUpd k v rest else (k', v') :: mapUpd k v rest

/-- Number of entries of the registry whose key is `k`. -/
def countKey (k : Nat) (l : List (Nat × NodeTCPState)) : Nat :=
  l.countP (fun p => p.1 = k)

/-- The monitor right after construction: empty registry, nothing leaked. -/
def initMonitor : SimpleE133Monitor :=
  { m_ip_map := []
    m_next_id := 0
    terminated := false
    leaked_sockets := []
    leaked_connections := [] }

/-- `SimpleE133Monitor::AddIP` (src lines 324-343): if the IP is already in
`m_ip_map`, return at once; otherwise log, create a `NodeTCPState` with
`connection_attempts` bumped from 0 to 1, insert it, and hand the address to
the connector via `AddEndpoint`. -/
def AddIP (m : SimpleE133Monitor) (ip : Nat) : SimpleE133Monitor × List Event :=
  match mapFind ip m.m_ip_map with
  | some _ => (m, [])
  | none =>
      let node_state : NodeTCPState :=
        { socket := none, health_checked_connection := none, connection_attempts := 1 }
      ({ m with m_ip_map := (ip, node_state) :: m.m_ip_map },
       [Event.log LogLevel.info, Event.addEndpoint ip])

/-- `SimpleE133Monitor::OnTCPConnect` (src lines 383-432).  The connector
delivers a freshly connected socket (allocated here with id `m.m_next_id`,
peer = the address connected to).  `setup_ok` is the oracle for
`health_checked_connection->Setup()`.  Paths, in source order:
* address not in the map: `OLA_FATAL`, close and delete the socket;
* `iter->second->socket = socket` (a previous socket pointer leaks);
* `Setup()` fails: `OLA_WARN`, delete the new connection object, close and
  delete the socket, null the socket slot;
* a pre-existing `health_checked_connection` is only warned about — the old
  object leaks (the source's own log message says so);
* on success the connection is stored, `SetOnClose`/`SetOnData` are wired
  and the socket joins the `SelectServer` read set. -/
def OnTCPConnect (m : SimpleE133Monitor) (ip : Nat) (setup_ok : Bool) :
    SimpleE133Monitor × List Event :=
  let s : TcpSocket := { id := m.m_next_id, peer := ip }
  match mapFind ip m.m_ip_map with
  | none =>
      ({ m with m_next_id := m.m_next_id + 1 },
       [Event.log LogLevel.fatal, Event.socketClose s.id, Event.socketDelete s.id])
  | some ns =>
      let leaked_s : List TcpSocket :=
        match ns.socket with
        | some old => old :: m.leaked_sockets
        | none => m.leaked_sockets
      let h : E133HealthCheckedConnection := { id := m.m_next_id + 1, addr := ip }
      if setup_ok then
        let dupEvents : List Event :=
          match ns.health_checked_connection with
          | some _ => [Event.log LogLevel.warn]
          | none => []
        let leaked_h : List E133HealthCheckedConnection :=
          match ns.health_checked_connection with
          | some old => old :: m.leaked_connections
          | none => m.leaked_connections
        let ns' : NodeTCPState :=
          { ns with socket := some s, health_checked_connection := some h }
        ({ m with
            m_ip_map := mapUpd ip ns' m.m_ip_map
            m_next_id := m.m_next_id + 2
            leaked_sockets := leaked_s
            leaked_connections := leaked_h },
         dupEvents ++ [Event.addReadDescriptor s.id])
      else
        let ns' : NodeTCPState := { ns with socket := none }
        ({ m with
            m_ip_map := mapUpd ip ns' m.m_ip_map
            m_next_id := m.m_next_id + 2
            leaked_sockets := leaked_s },
         [Event.log LogLevel.warn, Event.connectionDelete h.id,
          Event.socketClose s.id, Event.socketDelete s.id])

/-- `SimpleE133Monitor::SocketClosed` (src lines 454-471): log, look up the
entry (`OLA_FATAL` and return when absent), delete the health-checked
connection, remove the socket from the `SelectServer` read set, delete it,
null both slots, and finally call `m_ss.Terminate()`. -/
def SocketClosed (m : SimpleE133Monitor) (ip : Nat) : SimpleE133Monitor × List Event :=
  match mapFind ip m.m_ip_map with
  | none => (m, [Event.log LogLevel.info, Event.log LogLevel.fatal])
  | some ns =>
      let hccEvents : List Event :=
        match ns.health_checked_connection with
        | some h => [Event.connectionDelete h.id]
        | none => []
      let sockEvents : List Event :=
        match ns.socket with
        | some s => [Event.removeReadDescriptor (some s.id), Event.socketDelete s.id]
        | none => [Event.removeReadDescriptor none]
      let ns' : NodeTCPState :=
        { ns with socket := none, health_checked_connection := none }
      ({ m with m_ip_map := mapUpd ip ns' m.m_ip_map, terminated := true },
       Event.log LogLevel.info :: hccEvents ++ sockEvents ++ [Event.terminate])

/-- `SimpleE133Monitor::SocketUnhealthy` (src lines 438-448).  The callback
carries a pointer to the `NodeTCPState`; entries are never removed from the
map, so the pointer is a key that is present — an absent key means the call
itself is impossible and is modelled as `none`.  The source then deletes the
health-checked connection, calls `GetPeer` on `node_state->socket` (a null
dereference when the socket slot is empty, modelled as `none`), and invokes
`SocketClosed` on the peer address. -/
def SocketUnhealthy (m : SimpleE133Monitor) (ip : Nat) :
    Option (SimpleE133Monitor × List Event) :=
  match mapFind ip m.m_ip_map with
  | none => none
  | some ns =>
      let hccEvents : List Event :=
        match ns.health_checked_connection with
        | some h => [Event.connectionDelete h.id]
        | none => []
      let ns1 : NodeTCPState := { ns with health_checked_connection := none }
      let m1 : SimpleE133Monitor := { m with m_ip_map := mapUpd ip ns1 m.m_ip_map }
      match ns.socket with
      | none => none
      | some s =>
          let r := SocketClosed m1 s.peer
          some (r.1, Event.log LogLevel.info :: hccEvents ++ r.2)

/-- Transport kind carried by `ola::plugin::e131::TransportHeader`. -/
inductive Transport where
  | TCP
  | UDP
deriving DecidableEq

/-- Model of `ola::plugin::e131::TransportHeader`: the transport kind and
the source IP (`SourceIP().AsInt()`). -/
structure TransportHeader where
  transport : Transport
  srcIP : Nat
deriving DecidableEq

/-- `SimpleE133Monitor::E133DataReceived` (src lines 478-492): ignore
non-TCP data; `OLA_FATAL` when the source IP is not in the map; otherwise
call `HeartbeatReceived()` on the entry's health-checked connection whenever
one is attached.  The registry itself is never modified. -/
def E133DataReceived (m : SimpleE133Monitor) (header : TransportHeader) :
    SimpleE133Monitor × List Event :=
  if header.transport ≠ Transport.TCP then (m, [])
  else
    match mapFind header.srcIP m.m_ip_map with
    | none => (m, [Event.log LogLevel.fatal])
    | some ns =>
        match ns.health_checked_connection with
        | some h => (m, [Event.heartbeatReceived h.id])
        | none => (m, [])

/-- `SimpleE133Monitor::EndpointRequest` (src lines 498-506): the handler
registered for endpoint 0 only logs the message at info level. -/
def EndpointRequest (m : SimpleE133Monitor) (_header : TransportHeader) :
    SimpleE133Monitor × List Event :=
  (m, [Event.log LogLevel.info])

/-- A fully decoded endpoint-0 frame: its transport header plus whether the
frame is (recognized as) a heartbeat frame. -/
structure Frame where
  header : TransportHeader
  is_heartbeat : Bool
deriving DecidableEq

/-- Modelled from the spec: the `DMPE133Inflator` dispatch code is not under
`src/`.  Its wiring is in the source (constructor, src lines 281 and
286-288): the inflator's data callback is `E133DataReceived` and the handler
registered for endpoint 0 is `EndpointRequest`.  Per the source doc comment
of `E133DataReceived` ("Called when we receive E1.33 data"), the data
callback runs for every fully decoded frame.  Whether a recognized heartbeat
frame is additionally forwarded to the endpoint-0 handler is decided by the
missing inflator; following the spec's terminal-layer rule, a recognized
heartbeat frame is not forwarded further, all other frames are. -/
def dispatchFrame (m : SimpleE133Monitor) (f : Frame) : SimpleE133Monitor × List Event :=
  let r1 := E133DataReceived m f.header
  if f.is_heartbeat then r1
  else
    let r2 := EndpointRequest r1.1 f.header
    (r2.1, r1.2 ++ Event.endpointRequest f.header.srcIP :: r2.2)

/-- The operations of the monitor that the invariant claims range over. -/
inductive Op where
  | addIP (ip : Nat)
  | onTCPConnect (ip : Nat) (setup_ok : Bool)
  | socketUnhealthy (ip : Nat)
  | socketClosed (ip : Nat)
  | dataReceived (header : TransportHeader)
deriving DecidableEq

/-- One step of the monitor; `none` marks a call that is impossible or is
undefined behaviour (null dereference) in the source. -/
def step (m : SimpleE133Monitor) : Op → Option (SimpleE133Monitor × List Event)
  | Op.addIP ip => some (AddIP m ip)
  | Op.onTCPConnect ip ok => some (OnTCPConnect m ip ok)
  | Op.socketUnhealthy ip => SocketUnhealthy m ip
  | Op.socketClosed ip => some (SocketClosed m ip)
  | Op.dataReceived h => some (E133DataReceived m h)

/-- Run a sequence of operations, discarding the event traces. -/
def runOps (m : SimpleE133Monitor) : List Op → Option SimpleE133Monitor
  | [] => some m
  | op :: rest =>
      match step m op with
      | none => none
      | some (m', _) => runOps m' rest

/-- Guard for realistic connector behaviour: the connector delivers a
connected socket for an address only while that address holds no live socket
and no live health-checked connection (it is asked to connect exactly once
per address, in `AddIP`). -/
def connectGuard (m : SimpleE133Monitor) : Op → Bool
  | Op.onTCPConnect ip _ =>
      match mapFind ip m.m_ip_map with
      | some ns => ns.socket = none ∧ ns.health_checked_connection = none
      | none => true
  | _ => true

/-- Run a sequence of operations in which every socket-connected delivery
satisfies `connectGuard`. -/
def runOpsG (m : SimpleE133Monitor) : List Op → Option SimpleE133Monitor
  | [] => some m
  | op :: rest =>
      if connectGuard m op then
        match step m op with
        | none => none
        | some (m', _) => runOpsG m' rest
      else none

/-- Number of live (allocated and not deleted) sockets associated with
address `a`: the entry's slot plus leaked sockets whose peer is `a`. -/
def liveSocketsFor (m : SimpleE133Monitor) (a : Nat) : Nat :=
  (match mapFind a m.m_ip_map with
   | some ns => if ns.socket.isSome then 1 else 0
   | none => 0)
  + m.leaked_sockets.countP (fun s => s.peer = a)

/-- Number of live health-checked connections associated with address `a`. -/
def liveConnectionsFor (m : SimpleE133Monitor) (a : Nat) : Nat :=
  (match mapFind a m.m_ip_map with
   | some ns => if ns.health_checked_connection.isSome then 1 else 0
   | none => 0)
  + m.leaked_connections.countP (fun h => h.addr = a)

/-- Iterate `AddIP` with the same address `n` times, concatenating traces. -/
def addIPn (m : SimpleE133Monitor) (ip : Nat) : Nat → SimpleE133Monitor × List Event
  | 0 => (m, [])
  | n + 1 =>
      let r1 := AddIP m ip
      let r2 := addIPn r1.1 ip n
      (r2.1, r1.2 ++ r2.2)

/-- `TimeInterval(5, 0)` in microseconds (src line 263). -/
def TCP_CONNECT_TIMEOUT : Nat := 5000000

/-- `TimeInterval(5, 0)` in microseconds (src line 264). -/
def INITIAL_TCP_RETRY_DELAY : Nat := 5000000

/-- `TimeInterval(60, 0)` in microseconds (src line 265). -/
def MAX_TCP_RETRY_DELAY : Nat := 60000000

/-- Modelled from the spec: `ola::network::LinearBackoffPolicy` is not under
`src/` (the monitor only constructs it at src line 277 with the initial and
maximum delays).  The spec fixes the contract — positive for attempts ≥ 1,
monotonically non-decreasing, capped at the maximum — and leaves the growth
law a policy parameter; the class name says linear, so the delay for attempt
`n` is `min (n * initial) maximum`. -/
def LinearBackoffPolicy.BackOffTime (initial maximum failed_attempts : Nat) : Nat :=
  min (failed_attempts * initial) maximum

/-- The monitor's backoff policy `m_backoff_policy` applied to an attempt
count: `LinearBackoffPolicy(INITIAL_TCP_RETRY_DELAY, MAX_TCP_RETRY_DELAY)`. -/
def NextDelay (failed_attempts : Nat) : Nat :=
  LinearBackoffPolicy.BackOffTime INITIAL_TCP_RETRY_DELAY MAX_TCP_RETRY_DELAY failed_attempts

/-- The `--targets` parse loop of `main` (src lines 586-600): tokens of the
comma-separated list are parsed in order; the first token that fails to
parse makes the process print usage and exit (`DisplayHelpAndExit`), before
any monitor or connection exists.  `parse` abstracts
`IPV4Address::FromString`. -/
def parseTargets {α : Type} (parse : α → Option Nat) : List α → Option (List Nat)
  | [] => some []
  | t :: rest =>
      match parse t with
      | none => none
      | some ip => Option.map (fun l => ip :: l) (parseTargets parse rest)

/-- Apply `AddIP` for each target in order (src lines 613-616). -/
def addAll (m : SimpleE133Monitor) : List Nat → SimpleE133Monitor × List Event
  | [] => (m, [])
  | ip :: rest =>
      let r1 := AddIP m ip
      let r2 := addAll r1.1 rest
      (r2.1, r1.2 ++ r2.2)

/-- Outcome of the target-handling part of `main`. -/
structure MainOutcome where
  usage_exit : Bool
  discovery : Bool
  events : List Event
  monitor : SimpleE133Monitor
deriving DecidableEq

/-- The target-handling logic of `main` (src lines 586-617): parse the
supplied token list; on a parse failure exit with the usage message (no
monitor, no events); with all tokens parsed, run discovery when the target
list is empty, otherwise bypass discovery and `AddIP` every target. -/
def monitorMain {α : Type} (parse : α → Option Nat) (tokens : List α) : MainOutcome :=
  match parseTargets parse tokens with
  | none =>
      { usage_exit := true, discovery := false, events := [], monitor := initMonitor }
  | some targets =>
      if targets.isEmpty then
        { usage_exit := false, discovery := true, events := [], monitor := initMonitor }
      else
        let r := addAll initMonitor targets
        { usage_exit := false, discovery := false, events := r.2, monitor := r.1 }

/-! ### Helper lemmas about the registry map -/

theorem mapFind_upd_of_found {k : Nat} {v w : NodeTCPState} {l : List (Nat × NodeTCPState)}
    (h : mapFind k l = some w) : mapFind k (mapUpd k v l) = some v := by
  induction l with
  | nil => simp [mapFind] at h
  | cons p rest ih =>
      obtain ⟨k', v'⟩ := p
      by_cases hk : k' = k
      · simp [mapFind, mapUpd, hk]
      · simp [mapFind, mapUpd, hk] at h ⊢
        exact ih h

theorem mapFind_upd_ne {a k : Nat} {v : NodeTCPState} {l : List (Nat × NodeTCPState)}
    (h : a ≠ k) : mapFind a (mapUpd k v l) = mapFind a l := by
  induction l with
  | nil => simp [mapUpd]
  | cons p rest ih =>
      obtain ⟨k', v'⟩ := p
      by_cases hk : k' = k
      · have ha : ¬ (k = a) := fun hc => h hc.symm
        simp [mapFind, mapUpd, hk, ha, ih]
      · simp [mapFind, mapUpd, hk, ih]

theorem mem_mapUpd {p : Nat × NodeTCPState} {k : Nat} {v : NodeTCPState}
    {l : List (Nat × NodeTCPState)} (h : p ∈ mapUpd k v l) : p ∈ l ∨ p.2 = v := by
  induction l with
  | nil => simp [mapUpd] at h
  | cons q rest ih =>
      obtain ⟨k', v'⟩ := q
      by_cases hk : k' = k
      · simp [mapUpd, hk] at h
        rcases h with h | h
        · right
          rw [h]
        · rcases ih h with h' | h'
          · exact Or.inl (List.mem_cons_of_mem _ h')
          · exact Or.inr h'
      · simp [mapUpd, hk] at h
        rcases h with h | h
        · left
          simp [h]
        · rcases ih h with h' | h'
          · exact Or.inl (List.mem_cons_of_mem _ h')
          · exact Or.inr h'

theorem mapFind_none_countKey {k : Nat} {l : List (Nat × NodeTCPState)}
    (h : mapFind k l = none) : countKey k l = 0 := by
  induction l with
  | nil => rfl
  | cons p rest ih =>
      obtain ⟨k', v'⟩ := p
      by_cases hk : k' = k
      · simp [mapFind, hk] at h
      · simp [mapFind, hk] at h
        unfold countKey at ih ⊢
        rw [List.countP_cons]
        simp [hk, ih h]

/-! ### Operation-level lemmas -/

theorem AddIP_found {m : SimpleE133Monitor} {ip : Nat} {ns : NodeTCPState}
    (h : mapFind ip m.m_ip_map = some ns) : AddIP m ip = (m, []) := by
  simp [AddIP, h]

theorem AddIP_notfound {m : SimpleE133Monitor} {ip : Nat}
    (h : mapFind ip m.m_ip_map = none) :
    AddIP m ip =
      ({ m with m_ip_map :=
          (ip, { socket := none, health_checked_connection := none,
                 connection_attempts := 1 }) :: m.m_ip_map },
       [Event.log LogLevel.info, Event.addEndpoint ip]) := by
  simp [AddIP, h]

theorem AddIP_mapFind (m : SimpleE133Monitor) (ip a : Nat) :
    mapFind a (AddIP m ip).1.m_ip_map =
      match mapFind ip m.m_ip_map with
      | some _ => mapFind a m.m_ip_map
      | none =>
          if ip = a then
            some { socket := none, health_checked_connection := none,
                   connection_attempts := 1 }
          else mapFind a m.m_ip_map := by
  cases h : mapFind ip m.m_ip_map with
  | some ns => simp [AddIP_found h]
  | none => simp [AddIP_notfound h, mapFind]

theorem E133DataReceived_fst (m : SimpleE133Monitor) (header : TransportHeader) :
    (E133DataReceived m header).1 = m := by
  unfold E133DataReceived
  by_cases ht : header.transport = Transport.TCP
  · cases hf : mapFind header.srcIP m.m_ip_map with
    | none => simp [ht, hf]
    | some ns =>
        cases hh : ns.health_checked_connection with
        | none => simp [ht, hf, hh]
        | some h => simp [ht, hf, hh]
  · simp [ht]

/-! ### The registry invariant (claim C3) -/

/-- The invariant of the registry: nothing has leaked and every entry whose
health-checked connection is present also has its socket present. -/
def RegistryInv (m : SimpleE133Monitor) : Prop :=
  m.leaked_sockets = [] ∧ m.leaked_connections = [] ∧
    ∀ p ∈ m.m_ip_map, p.2.health_checked_connection.isSome → p.2.socket.isSome

theorem RegistryInv_AddIP {m : SimpleE133Monitor} (ip : Nat)
    (hm : RegistryInv m) : RegistryInv (AddIP m ip).1 := by
  obtain ⟨h1, h2, h3⟩ := hm
  cases h : mapFind ip m.m_ip_map with
  | some ns => simpa [AddIP_found h] using ⟨h1, h2, h3⟩
  | none =>
      refine ⟨by simp [AddIP_notfound h, h1], by simp [AddIP_notfound h, h2], ?_⟩
      intro p hp
      simp [AddIP_notfound h] at hp
      rcases hp with hp | hp
      · simp [hp]
      · exact h3 p hp

theorem RegistryInv_OnTCPConnect {m : SimpleE133Monitor} {ip : Nat} {ok : Bool}
    (hg : connectGuard m (Op.onTCPConnect ip ok) = true)
    (hm : RegistryInv m) : RegistryInv (OnTCPConnect m ip ok).1 := by
  obtain ⟨h1, h2, h3⟩ := hm
  cases hf : mapFind ip m.m_ip_map with
  | none => exact ⟨by simp [OnTCPConnect, hf, h1], by simp [OnTCPConnect, hf, h2],
      by simpa [OnTCPConnect, hf] using h3⟩
  | some ns =>
      have hguard : ns.socket = none ∧ ns.health_checked_connection = none := by
        simpa [connectGuard, hf] using hg
      obtain ⟨hs, hh⟩ := hguard
      cases ok with
      | true =>
          refine ⟨by simp [OnTCPConnect, hf, hs, h1],
                  by simp [OnTCPConnect, hf, hh, h2], ?_⟩
          intro p hp
          simp only [OnTCPConnect, hf] at hp
          rcases mem_mapUpd (by simpa [hs, hh] using hp) with hmem | hval
          · exact h3 p hmem
          · simp [hval]
      | false =>
          refine ⟨by simp [OnTCPConnect, hf, hs, h1], by simp [OnTCPConnect, hf, h2], ?_⟩
          intro p hp
          simp only [OnTCPConnect, hf] at hp
          rcases mem_mapUpd (by simpa [hs, hh] using hp) with hmem | hval
          · exact h3 p hmem
          · rw [hval]
            simp [hh]

theorem RegistryInv_SocketClosed {m : SimpleE133Monitor} (ip : Nat)
    (hm : RegistryInv m) : RegistryInv (SocketClosed m ip).1 := by
  obtain ⟨h1, h2, h3⟩ := hm
  cases hf : mapFind ip m.m_ip_map with
  | none => exact ⟨by simp [SocketClosed, hf, h1], by simp [SocketClosed, hf, h2],
      by simpa [SocketClosed, hf] using h3⟩
  | some ns =>
      refine ⟨by simp [SocketClosed, hf, h1], by simp [SocketClosed, hf, h2], ?_⟩
      intro p hp
      simp only [SocketClosed, hf] at hp
      rcases mem_mapUpd hp with hmem | hval
      · exact h3 p hmem
      · rw [hval]
        simp

theorem RegistryInv_mapUpd {m : SimpleE133Monitor} {ip : Nat} {v : NodeTCPState}
    (hv : v.health_checked_connection.isSome → v.socket.isSome)
    (hm : RegistryInv m) :
    RegistryInv { m with m_ip_map := mapUpd ip v m.m_ip_map } := by
  obtain ⟨h1, h2, h3⟩ := hm
  refine ⟨h1, h2, ?_⟩
  intro p hp
  simp only at hp
  rcases mem_mapUpd hp with hmem | hval
  · exact h3 p hmem
  · rw [hval]
    exact hv

theorem RegistryInv_SocketUnhealthy {m m' : SimpleE133Monitor} {ip : Nat}
    {ev : List Event}
    (h : SocketUnhealthy m ip = some (m', ev)) (hm : RegistryInv m) :
    RegistryInv m' := by
  cases hf : mapFind ip m.m_ip_map with
  | none => simp [SocketUnhealthy, hf] at h
  | some ns =>
      cases hs : ns.socket with
      | none => simp [SocketUnhealthy, hf, hs] at h
      | some s =>
          simp only [SocketUnhealthy, hf, hs] at h
          obtain ⟨hA, hB⟩ := Prod.mk.inj (Option.some.inj h)
          rw [← hA]
          exact RegistryInv_SocketClosed _ (RegistryInv_mapUpd (by simp) hm)

theorem RegistryInv_step {m m' : SimpleE133Monitor} {op : Op} {ev : List Event}
    (hg : connectGuard m op = true) (h : step m op = some (m', ev))
    (hm : RegistryInv m) : RegistryInv m' := by
  cases op with
  | addIP ip =>
      have : m' = (AddIP m ip).1 := by
        simp only [step, Option.some.injEq] at h
        rw [h]
      rw [this]
      exact RegistryInv_AddIP ip hm
  | onTCPConnect ip ok =>
      have : m' = (OnTCPConnect m ip ok).1 := by
        simp only [step, Option.some.injEq] at h
        rw [h]
      rw [this]
      exact RegistryInv_OnTCPConnect hg hm
  | socketUnhealthy ip =>
      simp only [step] at h
      exact RegistryInv_SocketUnhealthy h hm
  | socketClosed ip =>
      have : m' = (SocketClosed m ip).1 := by
        simp only [step, Option.some.injEq] at h
        rw [h]
      rw [this]
      exact RegistryInv_SocketClosed ip hm
  | dataReceived hd =>
      have : m' = (E133DataReceived m hd).1 := by
        simp only [step, Option.some.injEq] at h
        rw [h]
      rw [this]
      rw [E133DataReceived_fst]
      exact hm

theorem RegistryInv_runOpsG {ops : List Op} :
    ∀ {m m' : SimpleE133Monitor}, runOpsG m ops = some m' → RegistryInv m →
      RegistryInv m' := by
  induction ops with
  | nil =>
      intro m m' h hm
      simp [runOpsG] at h
      rw [← h]
      exact hm
  | cons op rest ih =>
      intro m m' h hm
      simp only [runOpsG] at h
      by_cases hg : connectGuard m op = true
      · rw [if_pos hg] at h
        cases hstep : step m op with
        | none => rw [hstep] at h; exact absurd h (by simp)
        | some r =>
            rw [hstep] at h
            exact ih h (RegistryInv_step hg hstep hm)
      · rw [if_neg (by simpa using hg)] at h
        exact absurd h (by simp)

theorem mapFind_some_mem {a : Nat} {ns : NodeTCPState} {l : List (Nat × NodeTCPState)}
    (h : mapFind a l = some ns) : (a, ns) ∈ l := by
  induction l with
  | nil => simp [mapFind] at h
  | cons p rest ih =>
      obtain ⟨k', v'⟩ := p
      by_cases hk : k' = a
      · simp [mapFind, hk] at h
        simp [List.mem_cons, hk, h]
      · simp [mapFind, hk] at h
        exact List.mem_cons_of_mem _ (ih h)

/-- A demonstration state: address 1 tracked by `AddIP` and then connected
with a successful heartbeat setup (socket id 0, connection id 1). -/
def demoConnected : SimpleE133Monitor :=
  (OnTCPConnect ((AddIP initMonitor 1).1) 1 true).1

/-! ### Claim C3 -/

/-- Claim C3 (amended): after any guarded sequence of `AddIP` /
`OnTCPConnect` / `SocketUnhealthy` / `SocketClosed` / `E133DataReceived`
operations — guarded meaning the connector delivers a connected socket only
for an address holding no live socket and no live health-check object, which
is how the single `AddEndpoint` call per address can behave — every address
has at most one live socket and at most one live health-check object, and
every entry whose health-check object is present also has its socket
present.  Unguarded sequences violate the claim (see the counterexample):
a second `OnTCPConnect` overwrites the slots without deleting the old
objects. -/
theorem registry_connection_invariant (ops : List Op) (m : SimpleE133Monitor)
    (h : runOpsG initMonitor ops = some m) :
    (∀ a, liveSocketsFor m a ≤ 1 ∧ liveConnectionsFor m a ≤ 1) ∧
    (∀ a ns, mapFind a m.m_ip_map = some ns →
       ns.health_checked_connection.isSome → ns.socket.isSome) := by
  have hInv : RegistryInv m :=
    RegistryInv_runOpsG h ⟨rfl, rfl, by simp [initMonitor]⟩
  obtain ⟨h1, h2, h3⟩ := hInv
  constructor
  · intro a
    constructor
    · unfold liveSocketsFor
      rw [h1]
      cases hf : mapFind a m.m_ip_map with
      | none => simp
      | some ns =>
          by_cases hs : ns.socket.isSome
          · simp [hs]
          · simp [hs]
    · unfold liveConnectionsFor
      rw [h2]
      cases hf : mapFind a m.m_ip_map with
      | none => simp
      | some ns =>
          by_cases hs : ns.health_checked_connection.isSome
          · simp [hs]
          · simp [hs]
  · intro a ns hf hh
    exact h3 (a, ns) (mapFind_some_mem hf) hh

/-- The operation sequence of the C3 counterexample: connect successfully,
then deliver a second connected socket whose heartbeat setup fails. -/
def c3cexOps : List Op :=
  [Op.addIP 1, Op.onTCPConnect 1 true, Op.onTCPConnect 1 false]

/-- The state reached by the C3 counterexample sequence. -/
def c3cexM : SimpleE133Monitor := (runOps initMonitor c3cexOps).getD initMonitor

/-- The registry entry of address 1 in the C3 counterexample state. -/
def c3cexNS : NodeTCPState :=
  (mapFind 1 c3cexM.m_ip_map).getD
    { socket := none, health_checked_connection := none, connection_attempts := 0 }

/-- Claim C3 as stated is false: after the concrete operation sequence
`c3cexOps` (a duplicate connect delivery whose `Setup()` fails, the path the
source reaches through its acknowledged-buggy pre-existing-connection case),
the entry of address 1 has its health-check object present while its socket
is absent, violating `healthCheck != null ⇒ socket != null`; the old socket
also leaks, so the address has two sockets that were never destroyed. -/
theorem registry_connection_invariant_cex :
    (runOps initMonitor c3cexOps).isSome = true ∧
    mapFind 1 c3cexM.m_ip_map = some c3cexNS ∧
    c3cexNS.health_checked_connection.isSome = true ∧
    c3cexNS.socket = none ∧
    c3cexM.leaked_sockets.length = 1 := by
  decide

/-- Witness for `registry_connection_invariant` at the concrete guarded
sequence connect-then-close for address 1. -/
theorem registry_connection_invariant_w :
    liveSocketsFor
        ((runOpsG initMonitor
            [Op.addIP 1, Op.onTCPConnect 1 true, Op.socketClosed 1]).getD initMonitor) 1 ≤ 1 ∧
    liveConnectionsFor
        ((runOpsG initMonitor
            [Op.addIP 1, Op.onTCPConnect 1 true, Op.socketClosed 1]).getD initMonitor) 1 ≤ 1 :=
  (registry_connection_invariant
      [Op.addIP 1, Op.onTCPConnect 1 true, Op.socketClosed 1]
      ((runOpsG initMonitor
          [Op.addIP 1, Op.onTCPConnect 1 true, Op.socketClosed 1]).getD initMonitor)
      (by decide)).1 1

/-! ### Claim C1 -/

/-- Claim C1 (amended): when the connection of a tracked address is closed
or declared unhealthy, `SocketClosed` tears down the health-check object and
then the socket of that entry (the entry itself persists with both slots
absent and its attempt counter intact) and leaves the connection state of
every other tracked address untouched — but no reconnection attempt is
rescheduled via the TCP Connector; instead the event loop is terminated
(`m_ss.Terminate()`), stopping the whole monitor.  (`SocketUnhealthy`
reaches the same code: it deletes the health check and delegates to
`SocketClosed` on the socket's peer address.) -/
theorem teardown_terminates_instead_of_reconnect (m : SimpleE133Monitor)
    (ip : Nat) (ns : NodeTCPState) (hf : mapFind ip m.m_ip_map = some ns) :
    mapFind ip (SocketClosed m ip).1.m_ip_map =
      some { socket := none, health_checked_connection := none,
             connection_attempts := ns.connection_attempts } ∧
    (∀ a, a ≠ ip → mapFind a (SocketClosed m ip).1.m_ip_map = mapFind a m.m_ip_map) ∧
    (∀ j, Event.addEndpoint j ∉ (SocketClosed m ip).2) ∧
    Event.terminate ∈ (SocketClosed m ip).2 ∧
    (SocketClosed m ip).1.terminated = true := by
  refine ⟨?_, ?_, ?_, ?_, ?_⟩
  · simp only [SocketClosed, hf]
    exact mapFind_upd_of_found hf
  · intro a ha
    simp only [SocketClosed, hf]
    exact mapFind_upd_ne ha
  · intro j
    simp only [SocketClosed, hf]
    cases hh : ns.health_checked_connection <;> cases hs : ns.socket <;> simp
  · simp only [SocketClosed, hf]
    cases hh : ns.health_checked_connection <;> cases hs : ns.socket <;> simp
  · simp [SocketClosed, hf]

/-- Claim C1 as stated is false at a concrete input: in `demoConnected`
(address 1 tracked, socket and health check live) a `SocketClosed` for
address 1 performs the teardown but schedules no reconnection attempt — no
`AddEndpoint` call reaches the connector — and terminates the reactor
instead. -/
theorem teardown_no_reconnect_cex :
    ((mapFind 1 demoConnected.m_ip_map).getD
        { socket := none, health_checked_connection := none,
          connection_attempts := 0 }).socket.isSome = true ∧
    Event.addEndpoint 1 ∉ (SocketClosed demoConnected 1).2 ∧
    Event.terminate ∈ (SocketClosed demoConnected 1).2 := by
  decide

/-- Witness for `teardown_terminates_instead_of_reconnect` at the concrete
state `demoConnected` and address 1. -/
theorem teardown_terminates_instead_of_reconnect_w :
    Event.addEndpoint 1 ∉ (SocketClosed demoConnected 1).2 ∧
    Event.terminate ∈ (SocketClosed demoConnected 1).2 ∧
    (SocketClosed demoConnected 1).1.terminated = true :=
  have h := teardown_terminates_instead_of_reconnect demoConnected 1
    ((mapFind 1 demoConnected.m_ip_map).getD
      { socket := none, health_checked_connection := none, connection_attempts := 0 })
    (by decide)
  ⟨h.2.2.1 1, h.2.2.2.1, h.2.2.2.2⟩

/-! ### Claim C2 -/

/-- Claim C2 (amended): the dispatch path performs no heartbeat recognition
when refreshing liveness — for every fully decoded TCP frame whose source
address is tracked and carries a live health-checked connection,
`HeartbeatReceived()` is invoked whether or not the frame is a heartbeat
frame (any E1.33 data refreshes the liveness deadline); forwarding to the
endpoint-0 control handler is likewise independent of that refresh (a
non-heartbeat frame is forwarded *and* refreshes the deadline).  The
registry is never modified by dispatch. -/
theorem every_tcp_frame_refreshes_liveness (m : SimpleE133Monitor) (f : Frame)
    (ns : NodeTCPState) (h : E133HealthCheckedConnection)
    (ht : f.header.transport = Transport.TCP)
    (hf : mapFind f.header.srcIP m.m_ip_map = some ns)
    (hh : ns.health_checked_connection = some h) :
    Event.heartbeatReceived h.id ∈ (dispatchFrame m f).2 ∧
    ((Event.endpointRequest f.header.srcIP ∈ (dispatchFrame m f).2) ↔
      f.is_heartbeat = false) ∧
    (dispatchFrame m f).1 = m := by
  unfold dispatchFrame
  cases hb : f.is_heartbeat
  · simp [E133DataReceived, EndpointRequest, ht, hf, hh]
  · simp [E133DataReceived, EndpointRequest, ht, hf, hh]

/-- Claim C2 as stated is false at a concrete input: in `demoConnected` a
decoded TCP frame from address 1 that is *not* a heartbeat frame both gets
forwarded to the endpoint-0 handler and triggers `HeartbeatReceived()` on
the health-checked connection (id 1), so a non-heartbeat frame does refresh
the liveness deadline, and `HeartbeatReceived()` is not invoked only for
heartbeat frames. -/
theorem heartbeat_iff_refresh_cex :
    (Frame.mk (TransportHeader.mk Transport.TCP 1) false).is_heartbeat = false ∧
    Event.heartbeatReceived 1 ∈
      (dispatchFrame demoConnected
        (Frame.mk (TransportHeader.mk Transport.TCP 1) false)).2 ∧
    Event.endpointRequest 1 ∈
      (dispatchFrame demoConnected
        (Frame.mk (TransportHeader.mk Transport.TCP 1) false)).2 := by
  decide

/-- Witness for `every_tcp_frame_refreshes_liveness` at `demoConnected` and
a concrete heartbeat frame from address 1. -/
theorem every_tcp_frame_refreshes_liveness_w :
    Event.heartbeatReceived 1 ∈
      (dispatchFrame demoConnected
        (Frame.mk (TransportHeader.mk Transport.TCP 1) true)).2 ∧
    (dispatchFrame demoConnected
        (Frame.mk (TransportHeader.mk Transport.TCP 1) true)).1 = demoConnected :=
  have h := every_tcp_frame_refreshes_liveness demoConnected
    (Frame.mk (TransportHeader.mk Transport.TCP 1) true)
    ((mapFind 1 demoConnected.m_ip_map).getD
      { socket := none, health_checked_connection := none, connection_attempts := 0 })
    (E133HealthCheckedConnection.mk 1 1)
    (by decide) (by decide) (by decide)
  ⟨h.1, h.2.2⟩

/-! ### Claim C7 -/

/-- Claim C7 (amended): when `OnTCPConnect` finds a pre-existing
health-check object for the connecting address (duplicate attach), the
violation is logged at *warning* level (not fatal), the old object is *not*
discarded — its pointer is overwritten without a `delete`, leaking it, as
the source's own log message announces — and the process continues running
(the reactor is not terminated and the entry keeps a fresh socket and
health-check object). -/
theorem duplicate_connection_attach_leaks (m : SimpleE133Monitor) (ip : Nat)
    (ns : NodeTCPState) (h : E133HealthCheckedConnection)
    (hf : mapFind ip m.m_ip_map = some ns)
    (hh : ns.health_checked_connection = some h) :
    Event.log LogLevel.warn ∈ (OnTCPConnect m ip true).2 ∧
    Event.log LogLevel.fatal ∉ (OnTCPConnect m ip true).2 ∧
    h ∈ (OnTCPConnect m ip true).1.leaked_connections ∧
    Event.connectionDelete h.id ∉ (OnTCPConnect m ip true).2 ∧
    (OnTCPConnect m ip true).1.terminated = m.terminated := by
  simp only [OnTCPConnect, hf, hh]
  cases hs : ns.socket <;> simp

/-- Claim C7 as stated is false at a concrete input: delivering a second
successfully-set-up connection for address 1 of `demoConnected` (whose
health-check object has id 1) logs no fatal-level message, does not destroy
the old health-check object, and leaks it instead. -/
theorem duplicate_connection_attach_cex :
    ((mapFind 1 demoConnected.m_ip_map).getD
        { socket := none, health_checked_connection := none,
          connection_attempts := 0 }).health_checked_connection =
      some (E133HealthCheckedConnection.mk 1 1) ∧
    Event.log LogLevel.fatal ∉ (OnTCPConnect demoConnected 1 true).2 ∧
    Event.connectionDelete 1 ∉ (OnTCPConnect demoConnected 1 true).2 ∧
    E133HealthCheckedConnection.mk 1 1 ∈
      (OnTCPConnect demoConnected 1 true).1.leaked_connections := by
  decide

/-- Witness for `duplicate_connection_attach_leaks` at `demoConnected`. -/
theorem duplicate_connection_attach_leaks_w :
    Event.log LogLevel.warn ∈ (OnTCPConnect demoConnected 1 true).2 ∧
    E133HealthCheckedConnection.mk 1 1 ∈
      (OnTCPConnect demoConnected 1 true).1.leaked_connections ∧
    (OnTCPConnect demoConnected 1 true).1.terminated = demoConnected.terminated :=
  have h := duplicate_connection_attach_leaks demoConnected 1
    ((mapFind 1 demoConnected.m_ip_map).getD
      { socket := none, health_checked_connection := none, connection_attempts := 0 })
    (E133HealthCheckedConnection.mk 1 1)
    (by decide) (by decide)
  ⟨h.1, h.2.2.1, h.2.2.2.2⟩

/-! ### Claim C4 -/

theorem addIPn_stable {m : SimpleE133Monitor} {ip : Nat} {ns : NodeTCPState}
    (h : mapFind ip m.m_ip_map = some ns) :
    ∀ n, addIPn m ip n = (m, []) := by
  intro n
  induction n with
  | zero => rfl
  | succ k ih => simp [addIPn, AddIP_found h, ih]

/-- Claim C4: for every sequence of `n ≥ 1` `AddIP` calls with the same
address, starting from a registry that does not yet track it, exactly one
`ConnectionState` entry for that address exists afterwards, and exactly one
connection attempt is handed to the connector over the whole sequence —
every call after the first returns before creating anything or calling
`AddEndpoint`. -/
theorem addIP_idempotent (m : SimpleE133Monitor) (ip : Nat) (n : Nat)
    (h0 : mapFind ip m.m_ip_map = none) (hn : 1 ≤ n) :
    countKey ip (addIPn m ip n).1.m_ip_map = 1 ∧
    (addIPn m ip n).2.countP (fun e => e = Event.addEndpoint ip) = 1 := by
  cases n with
  | zero => omega
  | succ k =>
      have hfind1 :
          mapFind ip (AddIP m ip).1.m_ip_map =
            some { socket := none, health_checked_connection := none,
                   connection_attempts := 1 } := by
        simp [AddIP_notfound h0, mapFind]
      have hstab := addIPn_stable hfind1 k
      have hz := mapFind_none_countKey h0
      constructor
      · simp only [addIPn, hstab]
        rw [AddIP_notfound h0]
        unfold countKey at hz ⊢
        simp [List.countP_cons, hz]
      · simp only [addIPn, hstab]
        simp [AddIP_notfound h0, List.countP_cons]

/-- Witness for `addIP_idempotent`: three `AddIP` calls for address 5 from
the empty registry leave exactly one entry and caused exactly one
`AddEndpoint`. -/
theorem addIP_idempotent_w :
    countKey 5 (addIPn initMonitor 5 3).1.m_ip_map = 1 ∧
    (addIPn initMonitor 5 3).2.countP (fun e => e = Event.addEndpoint 5) = 1 :=
  addIP_idempotent initMonitor 5 3 (by decide) (by decide)

/-! ### Claim C5 -/

/-- Claim C5: when `OnTCPConnect` is invoked with an address that has no
registry entry, the delivered socket is immediately closed and then deleted
(the trace is exactly a fatal log followed by close and delete of that
socket, so no descriptor leaks), no registry entry is created or modified,
nothing is added to the leak lists, and the process keeps running (the
reactor's terminated flag is unchanged). -/
theorem onTCPConnect_untracked_socket_discarded (m : SimpleE133Monitor)
    (ip : Nat) (setup_ok : Bool) (h : mapFind ip m.m_ip_map = none) :
    (OnTCPConnect m ip setup_ok).1.m_ip_map = m.m_ip_map ∧
    (OnTCPConnect m ip setup_ok).2 =
      [Event.log LogLevel.fatal, Event.socketClose m.m_next_id,
       Event.socketDelete m.m_next_id] ∧
    (OnTCPConnect m ip setup_ok).1.terminated = m.terminated ∧
    (OnTCPConnect m ip setup_ok).1.leaked_sockets = m.leaked_sockets ∧
    (OnTCPConnect m ip setup_ok).1.leaked_connections = m.leaked_connections := by
  simp [OnTCPConnect, h]

/-- Witness for `onTCPConnect_untracked_socket_discarded`: delivering a
connected socket for the untracked address 2 while only address 1 is
tracked. -/
theorem onTCPConnect_untracked_socket_discarded_w :
    (OnTCPConnect (AddIP initMonitor 1).1 2 true).1.m_ip_map =
      (AddIP initMonitor 1).1.m_ip_map ∧
    (OnTCPConnect (AddIP initMonitor 1).1 2 true).2 =
      [Event.log LogLevel.fatal, Event.socketClose 0, Event.socketDelete 0] ∧
    (OnTCPConnect (AddIP initMonitor 1).1 2 true).1.terminated =
      (AddIP initMonitor 1).1.terminated :=
  have h := onTCPConnect_untracked_socket_discarded (AddIP initMonitor 1).1 2 true
    (by decide)
  ⟨h.1, h.2.1, h.2.2.1⟩

/-! ### Claim C6 -/

/-- Claim C6: when `Setup()` of the freshly constructed health-checked
connection fails for a newly connected socket (the entry's health-check
slot being empty, as it is for a fresh connection), the caller tears the
socket down itself: the trace is a warning log, deletion of the new
connection object, then close and delete of the socket; afterwards the
entry persists with both slots absent, every other entry is untouched, and
the process keeps running (no termination, no exception — the function
returns normally). -/
theorem setup_failure_teardown (m : SimpleE133Monitor) (ip : Nat)
    (ns : NodeTCPState) (hf : mapFind ip m.m_ip_map = some ns)
    (hh : ns.health_checked_connection = none) :
    mapFind ip (OnTCPConnect m ip false).1.m_ip_map =
      some { socket := none, health_checked_connection := none,
             connection_attempts := ns.connection_attempts } ∧
    (∀ a, a ≠ ip → mapFind a (OnTCPConnect m ip false).1.m_ip_map =
       mapFind a m.m_ip_map) ∧
    (OnTCPConnect m ip false).2 =
      [Event.log LogLevel.warn, Event.connectionDelete (m.m_next_id + 1),
       Event.socketClose m.m_next_id, Event.socketDelete m.m_next_id] ∧
    Event.terminate ∉ (OnTCPConnect m ip false).2 ∧
    (OnTCPConnect m ip false).1.terminated = m.terminated := by
  refine ⟨?_, ?_, ?_, ?_, ?_⟩
  · simp only [OnTCPConnect, hf]
    have := mapFind_upd_of_found (v := { ns with socket := none }) hf
    simp only [Bool.false_eq_true, if_false] at this ⊢
    rw [this, hh]
  · intro a ha
    simp only [OnTCPConnect, hf]
    simp only [Bool.false_eq_true, if_false]
    exact mapFind_upd_ne ha
  · simp [OnTCPConnect, hf]
  · simp [OnTCPConnect, hf]
  · simp [OnTCPConnect, hf]

/-- Witness for `setup_failure_teardown`: address 1 tracked and not yet
connected, `Setup()` fails. -/
theorem setup_failure_teardown_w :
    mapFind 1 (OnTCPConnect (AddIP initMonitor 1).1 1 false).1.m_ip_map =
      some { socket := none, health_checked_connection := none,
             connection_attempts := 1 } ∧
    Event.terminate ∉ (OnTCPConnect (AddIP initMonitor 1).1 1 false).2 ∧
    (OnTCPConnect (AddIP initMonitor 1).1 1 false).1.terminated =
      (AddIP initMonitor 1).1.terminated :=
  have h := setup_failure_teardown (AddIP initMonitor 1).1 1
    { socket := none, health_checked_connection := none, connection_attempts := 1 }
    (by decide) (by decide)
  ⟨h.1, h.2.2.2.1, h.2.2.2.2⟩

/-! ### Claim C8 -/

/-- Claim C8: for the monitor's configured backoff policy (initial delay 5
seconds, maximum delay 60 seconds), the delay of every attempt count `a ≥
1` is strictly positive, the delay is monotonically non-decreasing in the
attempt count, and it never exceeds the configured maximum. -/
theorem backoff_monotone_bounded (a b : Nat) (h1 : 1 ≤ a) (h2 : a ≤ b) :
    0 < NextDelay a ∧ NextDelay a ≤ NextDelay b ∧
    NextDelay b ≤ MAX_TCP_RETRY_DELAY := by
  unfold NextDelay LinearBackoffPolicy.BackOffTime INITIAL_TCP_RETRY_DELAY
    MAX_TCP_RETRY_DELAY
  refine ⟨?_, ?_, ?_⟩
  · exact lt_min (Nat.mul_pos (by omega) (by norm_num)) (by norm_num)
  · exact min_le_min (Nat.mul_le_mul_right _ h2) (le_refl _)
  · exact min_le_right _ _

/-- Witness for `backoff_monotone_bounded` at attempt counts 1 and 2. -/
theorem backoff_monotone_bounded_w :
    0 < NextDelay 1 ∧ NextDelay 1 ≤ NextDelay 2 ∧
    NextDelay 2 ≤ MAX_TCP_RETRY_DELAY :=
  backoff_monotone_bounded 1 2 (by decide) (by decide)

/-! ### Claim C10 -/

/-- Claim C10: whenever the frame's transport kind is not TCP, or its
source address has no registry entry, or the entry's health-check object is
absent, `E133DataReceived` invokes no `HeartbeatReceived()` and leaves
every `ConnectionState` in the registry unchanged (indeed it returns the
whole monitor state unchanged). -/
theorem dataReceived_no_refresh_cases (m : SimpleE133Monitor)
    (header : TransportHeader) (i : Nat)
    (h : header.transport ≠ Transport.TCP ∨
         mapFind header.srcIP m.m_ip_map = none ∨
         ∃ ns, mapFind header.srcIP m.m_ip_map = some ns ∧
               ns.health_checked_connection = none) :
    (E133DataReceived m header).1 = m ∧
    Event.heartbeatReceived i ∉ (E133DataReceived m header).2 := by
  refine ⟨E133DataReceived_fst m header, ?_⟩
  rcases h with h | h | ⟨ns, hf, hh⟩
  · simp [E133DataReceived, h]
  · by_cases ht : header.transport = Transport.TCP
    · simp [E133DataReceived, ht, h]
    · simp [E133DataReceived, ht]
  · by_cases ht : header.transport = Transport.TCP
    · simp [E133DataReceived, ht, hf, hh]
    · simp [E133DataReceived, ht]

/-- Witness for `dataReceived_no_refresh_cases`: a UDP-transport header
from the connected address 1 of `demoConnected` triggers no heartbeat and
changes nothing. -/
theorem dataReceived_no_refresh_cases_w :
    (E133DataReceived demoConnected (TransportHeader.mk Transport.UDP 1)).1 =
      demoConnected ∧
    Event.heartbeatReceived 1 ∉
      (E133DataReceived demoConnected (TransportHeader.mk Transport.UDP 1)).2 :=
  dataReceived_no_refresh_cases demoConnected (TransportHeader.mk Transport.UDP 1) 1
    (Or.inl (by decide))

/-! ### Claim C9 -/

theorem parseTargets_none {α : Type} {parse : α → Option Nat} {tokens : List α}
    (h : ∃ t ∈ tokens, parse t = none) : parseTargets parse tokens = none := by
  induction tokens with
  | nil => simp at h
  | cons t rest ih =>
      obtain ⟨u, hu, hpu⟩ := h
      rcases List.mem_cons.mp hu with rfl | hmem
      · simp [parseTargets, hpu]
      · cases hp : parse t with
        | none => simp [parseTargets, hp]
        | some ip => simp [parseTargets, hp, ih ⟨u, hmem, hpu⟩]

theorem parseTargets_isSome {α : Type} {parse : α → Option Nat} {tokens : List α}
    (h : ∀ t ∈ tokens, (parse t).isSome) : (parseTargets parse tokens).isSome := by
  induction tokens with
  | nil => simp [parseTargets]
  | cons t rest ih =>
      have ht := h t (by simp)
      cases hp : parse t with
      | none => rw [hp] at ht; simp at ht
      | some ip =>
          have hr := ih (fun u hu => h u (by simp [hu]))
          cases hq : parseTargets parse rest with
          | none => rw [hq] at hr; simp at hr
          | some ts => simp [parseTargets, hp, hq]

theorem parseTargets_mem {α : Type} {parse : α → Option Nat} {tokens : List α}
    {ts : List Nat} {t : α} {ip : Nat}
    (hp : parseTargets parse tokens = some ts) (ht : t ∈ tokens)
    (hip : parse t = some ip) : ip ∈ ts := by
  induction tokens generalizing ts with
  | nil => simp at ht
  | cons u rest ih =>
      cases hu : parse u with
      | none => simp [parseTargets, hu] at hp
      | some j =>
          cases hq : parseTargets parse rest with
          | none => simp [parseTargets, hu, hq] at hp
          | some us =>
              simp [parseTargets, hu, hq] at hp
              rcases List.mem_cons.mp ht with rfl | hmem
              · have hj : j = ip := by
                  rw [hu] at hip
                  exact Option.some.inj hip
                rw [← hp, hj]
                exact List.mem_cons_self _ _
              · rw [← hp]
                exact List.mem_cons_of_mem _ (ih hq hmem)

theorem AddIP_tracked_preserved {m : SimpleE133Monitor} {b a : Nat}
    (h : (mapFind a m.m_ip_map).isSome) :
    (mapFind a (AddIP m b).1.m_ip_map).isSome := by
  rw [AddIP_mapFind]
  cases hb : mapFind b m.m_ip_map with
  | some ns => simpa using h
  | none =>
      by_cases hba : b = a
      · simp [hba]
      · simpa [hba] using h

theorem addAll_preserved {ts : List Nat} :
    ∀ {m : SimpleE133Monitor} {a : Nat}, (mapFind a m.m_ip_map).isSome →
      (mapFind a (addAll m ts).1.m_ip_map).isSome := by
  induction ts with
  | nil =>
      intro m a h
      simpa [addAll] using h
  | cons t rest ih =>
      intro m a h
      simp only [addAll]
      exact ih (AddIP_tracked_preserved h)

theorem addAll_tracked_event {ts : List Nat} :
    ∀ {m : SimpleE133Monitor} {ip : Nat}, ip ∈ ts →
      (mapFind ip (addAll m ts).1.m_ip_map).isSome ∧
      ((mapFind ip m.m_ip_map).isSome ∨
        Event.addEndpoint ip ∈ (addAll m ts).2) := by
  induction ts with
  | nil =>
      intro m ip h
      simp at h
  | cons t rest ih =>
      intro m ip h
      rcases List.mem_cons.mp h with rfl | hmem
      · constructor
        · simp only [addAll]
          apply addAll_preserved
          rw [AddIP_mapFind]
          cases hb : mapFind ip m.m_ip_map with
          | some ns => simp [hb]
          | none => simp
        · cases hb : mapFind ip m.m_ip_map with
          | some ns => exact Or.inl (by simp [hb])
          | none =>
              right
              simp only [addAll]
              rw [AddIP_notfound hb]
              simp
      · have hr := ih (m := (AddIP m t).1) hmem
        constructor
        · simpa [addAll] using hr.1
        · rcases hr.2 with hsome | hev
          · cases hb : mapFind ip m.m_ip_map with
            | some ns => exact Or.inl (by simp [hb])
            | none =>
                right
                rw [AddIP_mapFind] at hsome
                cases hbt : mapFind t m.m_ip_map with
                | some ns =>
                    rw [hbt] at hsome
                    rw [hb] at hsome
                    simp at hsome
                | none =>
                    rw [hbt] at hsome
                    by_cases hta : t = ip
                    · subst hta
                      simp only [addAll]
                      rw [AddIP_notfound hbt]
                      simp
                    · rw [hb] at hsome
                      simp [hta] at hsome
          · right
            simp only [addAll]
            exact List.mem_append_right _ hev

/-- Claim C9: when a manual target list is supplied, either some element
fails to parse and the process exits with the usage message before any
monitor state or connection attempt exists, or every element parses, in
which case discovery is bypassed entirely and every parsed address is added
as a target: it is tracked in the registry and a connection attempt for it
was handed to the connector. -/
theorem manual_targets_parse_or_exit {α : Type} (parse : α → Option Nat)
    (tokens : List α) :
    ((∃ t ∈ tokens, parse t = none) →
        (monitorMain parse tokens).usage_exit = true ∧
        (monitorMain parse tokens).events = []) ∧
    ((∀ t ∈ tokens, (parse t).isSome) →
        (monitorMain parse tokens).usage_exit = false ∧
        (tokens ≠ [] →
          (monitorMain parse tokens).discovery = false ∧
          ∀ t ∈ tokens, ∀ ip, parse t = some ip →
            (mapFind ip (monitorMain parse tokens).monitor.m_ip_map).isSome ∧
            Event.addEndpoint ip ∈ (monitorMain parse tokens).events)) := by
  constructor
  · intro h
    simp [monitorMain, parseTargets_none h]
  · intro h
    have hs := parseTargets_isSome h
    cases hp : parseTargets parse tokens with
    | none =>
        rw [hp] at hs
        simp at hs
    | some ts =>
        constructor
        · by_cases he : ts.isEmpty <;> simp [monitorMain, hp, he]
        · intro hne
          have hts : ts ≠ [] := by
            cases tokens with
            | nil => exact absurd rfl hne
            | cons u rest =>
                cases hu : parse u with
                | none => simp [parseTargets, hu] at hp
                | some j =>
                    cases hq : parseTargets parse rest with
                    | none => simp [parseTargets, hu, hq] at hp
                    | some us =>
                        simp [parseTargets, hu, hq] at hp
                        rw [← hp]
                        simp
          have hempty : ts.isEmpty = false := by
            cases ts with
            | nil => exact absurd rfl hts
            | cons a l => rfl
          refine ⟨by simp [monitorMain, hp, hempty], ?_⟩
          intro t ht ip hip
          have hmem := parseTargets_mem hp ht hip
          have h2 := addAll_tracked_event (m := initMonitor) hmem
          have hmon : (monitorMain parse tokens).monitor = (addAll initMonitor ts).1 := by
            simp [monitorMain, hp, hempty]
          have hev : (monitorMain parse tokens).events = (addAll initMonitor ts).2 := by
            simp [monitorMain, hp, hempty]
          rw [hmon, hev]
          refine ⟨h2.1, ?_⟩
          rcases h2.2 with hsome | hin
          · simp [initMonitor, mapFind] at hsome
          · exact hin

/-- A concrete stand-in for `IPV4Address::FromString` used by the C9
witness: tokens below 10 parse (to the token plus 100), others fail. -/
def parseW : Nat → Option Nat :=
  fun t => if t < 10 then some (t + 100) else none

/-- Witness for `manual_targets_parse_or_exit`: the list `[1, 20]` contains
an unparsable token and exits with usage; the list `[1, 2]` parses fully,
bypasses discovery and schedules a connection for the parsed address 101. -/
theorem manual_targets_parse_or_exit_w :
    (monitorMain parseW [1, 20]).usage_exit = true ∧
    (monitorMain parseW [1, 20]).events = [] ∧
    (monitorMain parseW [1, 2]).usage_exit = false ∧
    (monitorMain parseW [1, 2]).discovery = false ∧
    Event.addEndpoint 101 ∈ (monitorMain parseW [1, 2]).events :=
  have h1 := (manual_targets_parse_or_exit parseW [1, 20]).1
    ⟨20, by decide, by decide⟩
  have h2 := (manual_targets_parse_or_exit parseW [1, 2]).2 (by decide)
  have h3 := h2.2 (by decide)
  have h4 := (h3.2 1 (by decide) 101 (by decide)).2
  ⟨h1.1, h1.2, h2.1, h3.1, h4⟩
